import Mathlib

set_option maxRecDepth 16384

/-!
Shallow embedding of the fake-news-detector service (`src/app.py`).

The embedding models:
* the JSON values produced by Python's `json.loads` (numbers are modelled as
  integers; fractional/exponent number literals are rejected by the parser,
  which is irrelevant for the verified claims, all of which either supply the
  parse outcome as a hypothesis or use integer-only inputs);
* `extract_json_from_response` with its strict parse, the greedy
  `re.search(r'\x7b.*\x7d', text, re.DOTALL)` fallback, and the fallback record;
* `validate_article_text`;
* the normalization block of `analyze_authenticity` (lines 155-163), where a
  Python exception (``int()`` coercion failure, attribute error on a non-dict)
  is modelled as `none`;
* the `/analyze` request handler `analyze_authenticity`, with the external
  Gemini client abstracted as a function from the prompt to an outcome.

Python's `str.strip()` is modelled by `pyStrip`, which drops ASCII whitespace
from both ends.
-/

/-- Whitespace stripped by Python's `str.strip()` (the ASCII part of the set). -/
def isPyWs (c : Char) : Bool :=
  c = ' ' ∨ c = '\t' ∨ c = '\n' ∨ c = '\r' ∨ c = '\x0b' ∨ c = '\x0c'

/-- Model of Python's `str.strip()`: drop whitespace from both ends. -/
def pyStrip (s : String) : String :=
  String.mk (((s.data.dropWhile isPyWs).reverse.dropWhile isPyWs).reverse)

/-- JSON values, as produced by Python's `json.loads`.  Objects keep their
key/value pairs in source order; lookups take the last binding, matching
Python dict construction where a later duplicate key overwrites an earlier
one.  Numbers are modelled as integers. -/
inductive Json where
  | null
  | bool (b : Bool)
  | num (n : Int)
  | str (s : String)
  | arr (elems : List Json)
  | obj (fields : List (String × Json))

/-- Lookup in a parsed JSON object: the value of the last binding of key `k`,
modelling Python dict indexing (`dict.get`). -/
def dictGet (fields : List (String × Json)) (k : String) : Option Json :=
  (fields.reverse.find? (fun p => p.1 == k)).map (fun p => p.2)

/-- Field lookup on an arbitrary JSON value: `none` on non-objects. -/
def jGet (j : Json) (k : String) : Option Json :=
  match j with
  | Json.obj fields => dictGet fields k
  | _ => none

/-- Whether a JSON value is an object (a Python dict). -/
def Json.isObj : Json → Bool
  | Json.obj _ => true
  | _ => false

/-- Whether a JSON value is a string. -/
def Json.isStr : Json → Bool
  | Json.str _ => true
  | _ => false

/-- Python truthiness of a JSON value (`if not data`). -/
def pyTruthy : Json → Bool
  | Json.null => false
  | Json.bool b => b
  | Json.num n => n != 0
  | Json.str s => s != ""
  | Json.arr l => !l.isEmpty
  | Json.obj l => !l.isEmpty

/-- JSON whitespace (space, tab, newline, carriage return), as accepted
between tokens by `json.loads`. -/
def skipWs : List Char → List Char
  | [] => []
  | c :: cs => if c = ' ' ∨ c = '\t' ∨ c = '\n' ∨ c = '\r' then skipWs cs else c :: cs

/-- Hex digit value, for `\uXXXX` escapes. -/
def hexDigitVal (c : Char) : Option Nat :=
  if '0' ≤ c ∧ c ≤ '9' then some (c.toNat - '0'.toNat)
  else if 'a' ≤ c ∧ c ≤ 'f' then some (c.toNat - 'a'.toNat + 10)
  else if 'A' ≤ c ∧ c ≤ 'F' then some (c.toNat - 'A'.toNat + 10)
  else none

/-- Body of a JSON string literal, after the opening quote: returns the decoded
string and the input past the closing quote.  Handles the escape sequences of
the JSON grammar and rejects raw control characters, as `json.loads` does in
its default strict mode. -/
def parseStrChars : Nat → List Char → List Char → Option (String × List Char)
  | 0, _, _ => none
  | Nat.succ fuel, cs, acc =>
    match cs with
    | [] => none
    | '"' :: rest => some (String.mk acc.reverse, rest)
    | '\\' :: rest =>
      match rest with
      | '"' :: r => parseStrChars fuel r ('"' :: acc)
      | '\\' :: r => parseStrChars fuel r ('\\' :: acc)
      | '/' :: r => parseStrChars fuel r ('/' :: acc)
      | 'b' :: r => parseStrChars fuel r (Char.ofNat 8 :: acc)
      | 'f' :: r => parseStrChars fuel r (Char.ofNat 12 :: acc)
      | 'n' :: r => parseStrChars fuel r ('\n' :: acc)
      | 'r' :: r => parseStrChars fuel r ('\r' :: acc)
      | 't' :: r => parseStrChars fuel r ('\t' :: acc)
      | 'u' :: h1 :: h2 :: h3 :: h4 :: r =>
        match hexDigitVal h1, hexDigitVal h2, hexDigitVal h3, hexDigitVal h4 with
        | some a, some b, some c, some d =>
          parseStrChars fuel r (Char.ofNat (((a * 16 + b) * 16 + c) * 16 + d) :: acc)
        | _, _, _, _ => none
      | _ => none
    | c :: rest => if c.toNat < 32 then none else parseStrChars fuel rest (c :: acc)

/-- Longest leading run of decimal digits. -/
def takeDigits : List Char → List Char × List Char
  | [] => ([], [])
  | c :: cs =>
    if c.isDigit then
      let (ds, rest) := takeDigits cs
      (c :: ds, rest)
    else ([], c :: cs)

/-- Numeric value of a digit list. -/
def digitsVal (ds : List Char) : Nat :=
  ds.foldl (fun a c => a * 10 + (c.toNat - '0'.toNat)) 0

/-- JSON number token at the head of the input.  Follows the JSON grammar for
integer literals (optional minus sign, no leading zeros); a fractional or
exponent part makes the parse fail (numbers are modelled as integers). -/
def parseNumber (cs : List Char) : Option (Json × List Char) :=
  let signed := match cs with
    | '-' :: r => (true, r)
    | r => (false, r)
  match takeDigits signed.2 with
  | ([], _) => none
  | (d :: ds, rest) =>
    if d = '0' ∧ ds ≠ [] then none
    else
      match rest with
      | [] => some (Json.num (if signed.1 then -(digitsVal (d :: ds) : Int) else (digitsVal (d :: ds) : Int)), [])
      | c :: _ =>
        if c = '.' ∨ c = 'e' ∨ c = 'E' then none
        else some (Json.num (if signed.1 then -(digitsVal (d :: ds) : Int) else (digitsVal (d :: ds) : Int)), rest)

mutual

/-- JSON value at the head of the input (after optional whitespace), modelling
the recursive-descent grammar of `json.loads`.  Fuel bounds the recursion
depth; `json_loads` supplies more fuel than any input can consume. -/
def parseValue : Nat → List Char → Option (Json × List Char)
  | 0, _ => none
  | Nat.succ fuel, cs =>
    match skipWs cs with
    | '{' :: rest =>
      (match skipWs rest with
       | '}' :: rest2 => some (Json.obj [], rest2)
       | rest2 => (parseMembers fuel rest2 []).map (fun p => (Json.obj p.1, p.2)))
    | '[' :: rest =>
      (match skipWs rest with
       | ']' :: rest2 => some (Json.arr [], rest2)
       | rest2 => (parseElements fuel rest2 []).map (fun p => (Json.arr p.1, p.2)))
    | '"' :: rest =>
      (parseStrChars (rest.length + 1) rest []).map (fun p => (Json.str p.1, p.2))
    | 't' :: 'r' :: 'u' :: 'e' :: rest => some (Json.bool true, rest)
    | 'f' :: 'a' :: 'l' :: 's' :: 'e' :: rest => some (Json.bool false, rest)
    | 'n' :: 'u' :: 'l' :: 'l' :: rest => some (Json.null, rest)
    | other => parseNumber other

/-- Members of a JSON object, positioned at the first character of a key
string (whitespace already skipped); `acc` holds the members parsed so far,
in reverse. -/
def parseMembers : Nat → List Char → List (String × Json) →
    Option (List (String × Json) × List Char)
  | 0, _, _ => none
  | Nat.succ fuel, cs, acc =>
    match cs with
    | '"' :: rest =>
      (match parseStrChars (rest.length + 1) rest [] with
       | none => none
       | some (key, rest2) =>
         match skipWs rest2 with
         | ':' :: rest3 =>
           (match parseValue fuel rest3 with
            | none => none
            | some (v, rest4) =>
              match skipWs rest4 with
              | ',' :: rest5 => parseMembers fuel (skipWs rest5) ((key, v) :: acc)
              | '}' :: rest5 => some (((key, v) :: acc).reverse, rest5)
              | _ => none)
         | _ => none)
    | _ => none

/-- Elements of a JSON array, positioned at the first character of an element;
`acc` holds the elements parsed so far, in reverse. -/
def parseElements : Nat → List Char → List Json → Option (List Json × List Char)
  | 0, _, _ => none
  | Nat.succ fuel, cs, acc =>
    match parseValue fuel cs with
    | none => none
    | some (v, rest) =>
      match skipWs rest with
      | ',' :: rest2 => parseElements fuel (skipWs rest2) (v :: acc)
      | ']' :: rest2 => some ((v :: acc).reverse, rest2)
      | _ => none

end

/-- Model of Python's `json.loads`: parse one JSON value with optional
surrounding whitespace; `none` models a raised `JSONDecodeError`. -/
def json_loads (s : String) : Option Json :=
  match parseValue (2 * s.length + 4) s.data with
  | some (v, rest) => if (skipWs rest).isEmpty then some v else none
  | none => none

/-- Model of `re.search(r'\x7b.*\x7d', s, re.DOTALL)` followed by `.group()`:
the substring from the first `\x7b` to the last `\x7d`, when the latter comes
after the former (the greedy match), else `none`. -/
def braceSpan (s : String) : Option String :=
  let cs := s.data
  match cs.findIdx? (fun c => c == '{'), cs.reverse.findIdx? (fun c => c == '}') with
  | some i, some k =>
    let j := cs.length - 1 - k
    if i < j then some (String.mk ((cs.drop i).take (j - i + 1))) else none
  | _, _ => none

/-- The fallback record of `extract_json_from_response` (`app.py` lines
79-87). -/
def fallbackRecord (response_text : String) : Json :=
  Json.obj [
    ("credibility_score", Json.num 0),
    ("verdict", Json.str "UNKNOWN"),
    ("confidence", Json.num 50),
    ("analysis", Json.str (if pyStrip response_text ≠ "" then pyStrip response_text
        else "Unable to analyze the article.")),
    ("red_flags", Json.str "Response parsing failed"),
    ("credibility_factors", Json.str "Unable to assess"),
    ("verification_tips", Json.str "Please try again with a different article")]

/-- Model of `extract_json_from_response` (`app.py` lines 66-87): strict parse
of the trimmed text, then parse of the greedy first-brace-to-last-brace
substring, then the fallback record. -/
def extract_json_from_response (response_text : String) : Json :=
  match json_loads (pyStrip response_text) with
  | some v => v
  | none =>
    match braceSpan response_text with
    | some sub =>
      match json_loads sub with
      | some v => v
      | none => fallbackRecord response_text
    | none => fallbackRecord response_text

/-- Model of `validate_article_text` (`app.py` lines 90-101). -/
def validate_article_text (text : String) : Bool × String :=
  if text = "" ∨ pyStrip text = "" then (false, "Article text cannot be empty")
  else if (pyStrip text).length < 10 then
    (false, "Article text is too short for meaningful analysis")
  else if (pyStrip text).length > 50000 then
    (false, "Article text is too long (maximum 50,000 characters)")
  else (true, "")

/-- Python `int(s)` on a string: optional surrounding whitespace, an optional
sign, then decimal digits; `none` models a raised `ValueError`. -/
def pyIntOfString (s : String) : Option Int :=
  let cs := (pyStrip s).data
  let signed : Bool × List Char := match cs with
    | '-' :: r => (true, r)
    | '+' :: r => (false, r)
    | r => (false, r)
  if signed.2 ≠ [] ∧ signed.2.all Char.isDigit then
    some (if signed.1 then -(digitsVal signed.2 : Int) else (digitsVal signed.2 : Int))
  else none

/-- Python `int(x)` on a JSON value: integers pass through, booleans become
0/1, numeric strings are parsed; everything else raises (`none`). -/
def pyInt : Json → Option Int
  | Json.num n => some n
  | Json.bool b => some (if b then 1 else 0)
  | Json.str s => pyIntOfString s
  | _ => none

/-- The result-building block of `analyze_authenticity` (`app.py` lines
155-163): field lookups with defaults, `int()` coercion and clamping of
`credibility_score` and `confidence`.  `none` models a Python exception
(`int()` coercion failure, or attribute error when the extracted value is not
a dict), which the handler turns into the 500 parse-failure response. -/
def normalize_result (analysis_result : Json) : Option Json :=
  match analysis_result with
  | Json.obj fields =>
    (match pyInt ((dictGet fields "credibility_score").getD (Json.num 0)),
           pyInt ((dictGet fields "confidence").getD (Json.num 50)) with
     | some cred, some conf =>
       some (Json.obj [
         ("credibility_score", Json.num (min 10 (max 0 cred))),
         ("verdict", (dictGet fields "verdict").getD (Json.str "UNKNOWN")),
         ("confidence", Json.num (min 100 (max 0 conf))),
         ("analysis", (dictGet fields "analysis").getD (Json.str "Analysis completed")),
         ("red_flags", (dictGet fields "red_flags").getD (Json.str "No major red flags identified")),
         ("credibility_factors",
           (dictGet fields "credibility_factors").getD (Json.str "Standard credibility markers present")),
         ("verification_tips",
           (dictGet fields "verification_tips").getD (Json.str "Cross-check with multiple reliable sources"))])
     | _, _ => none)
  | _ => none

/-- Whether a JSON value is an object carrying all seven fields of the
`AnalysisResult` schema. -/
def hasSevenFields (j : Json) : Bool :=
  match j with
  | Json.obj fields =>
    ["credibility_score", "verdict", "confidence", "analysis",
     "red_flags", "credibility_factors", "verification_tips"].all
      (fun k => (dictGet fields k).isSome)
  | _ => false

/-- Model of `create_fake_news_analysis_prompt` (`app.py` lines 34-63): the
fixed instructional template with the article text interpolated once. -/
def create_fake_news_analysis_prompt (article_text : String) : String :=
  "\nYou are an expert fact-checker and media analyst specializing in detecting fake news and misinformation. \nAnalyze the following news article text for credibility, authenticity, and potential misinformation.\n\nPlease analyze these aspects:\n1. Source credibility and attribution\n2. Factual accuracy and verifiable claims\n3. Emotional manipulation and sensational language\n4. Missing context or supporting evidence\n5. Logical consistency and coherence\n6. Signs of propaganda or deliberate misinformation\n\nArticle Text:\n"
  ++ article_text
  ++ "\n\nPlease provide your analysis in the following JSON format:\n\x7b\n    \"credibility_score\": [number from 0-10],\n    \"verdict\": \"[CREDIBLE/SUSPICIOUS/FAKE/MIXED]\",\n    \"confidence\": [number from 0-100],\n    \"analysis\": \"[detailed explanation of your findings]\",\n    \"red_flags\": \"[main credibility concerns]\",\n    \"credibility_factors\": \"[positive credibility indicators]\",\n    \"verification_tips\": \"[suggestions for fact-checking]\"\n\x7d\n\nIMPORTANT: Return ONLY the JSON object, no additional text before or after.\n"

/-- Outcome of `model.generate_content(prompt)` as the handler observes it:
the call raises, or returns a falsy response object (`not response`), or
returns a response whose `.text` is missing (`none`) or some string. -/
inductive ModelOutcome where
  | err
  | ok (resp : Option (Option String))

/-- The parts of the Flask request the `/analyze` handler reads:
`request.is_json`, and the parsed body from `request.get_json()` (`none`
models `get_json` raising on a malformed body). -/
structure HttpRequest where
  is_json : Bool
  json_body : Option Json

/-- An HTTP response: status code and JSON body. -/
structure HttpResponse where
  status : Nat
  body : Json

/-- A JSON error body, as built by `jsonify(\x7b"error": msg\x7d)`. -/
def errorBody (msg : String) : Json :=
  Json.obj [("error", Json.str msg)]

/-- The line `article_text = data.get('text', '').strip()`: `none` models a
Python exception (`.get` on a non-dict, or `.strip()` on a non-string). -/
def get_article_text (data : Json) : Option String :=
  match data with
  | Json.obj fields =>
    (match dictGet fields "text" with
     | none => some (pyStrip "")
     | some (Json.str s) => some (pyStrip s)
     | some _ => none)
  | _ => none

/-- Model of the `/analyze` handler `analyze_authenticity` (`app.py` lines
114-174).  The external Gemini client is a parameter mapping the prompt to an
outcome; exceptions escaping to the outer `try` become the catch-all 500
response. -/
def analyze_authenticity (req : HttpRequest) (client : String → ModelOutcome) :
    HttpResponse :=
  if req.is_json = false then
    ⟨400, errorBody "Content-Type must be application/json"⟩
  else
    match req.json_body with
    | none => ⟨500, errorBody "An unexpected error occurred. Please try again."⟩
    | some data =>
      if pyTruthy data = false then ⟨400, errorBody "No JSON data provided"⟩
      else
        match get_article_text data with
        | none => ⟨500, errorBody "An unexpected error occurred. Please try again."⟩
        | some article_text =>
          if (validate_article_text article_text).1 = false then
            ⟨400, errorBody (validate_article_text article_text).2⟩
          else
            match client (create_fake_news_analysis_prompt article_text) with
            | ModelOutcome.err =>
              ⟨503, errorBody "AI analysis service is temporarily unavailable. Please try again later."⟩
            | ModelOutcome.ok none =>
              ⟨503, errorBody "AI analysis service is temporarily unavailable. Please try again later."⟩
            | ModelOutcome.ok (some none) =>
              ⟨503, errorBody "AI analysis service is temporarily unavailable. Please try again later."⟩
            | ModelOutcome.ok (some (some t)) =>
              if t = "" then
                ⟨503, errorBody "AI analysis service is temporarily unavailable. Please try again later."⟩
              else
                match normalize_result (extract_json_from_response t) with
                | some result => ⟨200, result⟩
                | none => ⟨500, errorBody "Failed to parse analysis results. Please try again."⟩

/-- C2: `validate_article_text` succeeds (with empty message) exactly when the
stripped text has length in [10, 50000]; otherwise it fails with the matching
message: the cannot-be-empty message for empty or all-whitespace input, the
too-short message for stripped length below 10, and the too-long message for
stripped length above 50000. -/
theorem validate_article_text_spec (text : String) :
    validate_article_text text =
      (if pyStrip text = "" then (false, "Article text cannot be empty")
       else if (pyStrip text).length < 10 then
         (false, "Article text is too short for meaningful analysis")
       else if (pyStrip text).length > 50000 then
         (false, "Article text is too long (maximum 50,000 characters)")
       else (true, "")) ∧
    ((validate_article_text text).1 = true ↔
      10 ≤ (pyStrip text).length ∧ (pyStrip text).length ≤ 50000) := by
  have hcond : (text = "" ∨ pyStrip text = "") ↔ pyStrip text = "" := by
    constructor
    · rintro (rfl | h)
      · rfl
      · exact h
    · intro h
      exact Or.inr h
  have hmain : validate_article_text text =
      (if pyStrip text = "" then (false, "Article text cannot be empty")
       else if (pyStrip text).length < 10 then
         (false, "Article text is too short for meaningful analysis")
       else if (pyStrip text).length > 50000 then
         (false, "Article text is too long (maximum 50,000 characters)")
       else (true, "")) := by
    unfold validate_article_text
    by_cases h : pyStrip text = ""
    · rw [if_pos (hcond.mpr h), if_pos h]
    · rw [if_neg (fun hc => h (hcond.mp hc)), if_neg h]
  refine ⟨hmain, ?_⟩
  rw [hmain]
  by_cases h : pyStrip text = ""
  · have hl : (pyStrip text).length = 0 := by rw [h]; rfl
    rw [if_pos h]
    simp
    omega
  · rw [if_neg h]
    by_cases h10 : (pyStrip text).length < 10
    · rw [if_pos h10]
      simp
      omega
    · rw [if_neg h10]
      by_cases h50 : (pyStrip text).length > 50000
      · rw [if_pos h50]
        simp
        omega
      · rw [if_neg h50]
        simp
        omega

/-- C4: when both the strict parse of the stripped text and the parse of the
greedy first-brace-to-last-brace substring fail (in particular also when there
is no such substring), `extract_json_from_response` returns exactly the
fallback record, whose analysis is the stripped raw text when non-empty and a
fixed message otherwise. -/
theorem extract_fallback_of_both_parses_fail (s : String)
    (h1 : json_loads (pyStrip s) = none)
    (h2 : (braceSpan s).bind json_loads = none) :
    extract_json_from_response s =
      Json.obj [
        ("credibility_score", Json.num 0),
        ("verdict", Json.str "UNKNOWN"),
        ("confidence", Json.num 50),
        ("analysis", Json.str (if pyStrip s ≠ "" then pyStrip s
            else "Unable to analyze the article.")),
        ("red_flags", Json.str "Response parsing failed"),
        ("credibility_factors", Json.str "Unable to assess"),
        ("verification_tips", Json.str "Please try again with a different article")] := by
  unfold extract_json_from_response
  rw [h1]
  cases hb : braceSpan s with
  | none => rfl
  | some sub =>
    have hsub : json_loads sub = none := by
      rw [hb] at h2
      simpa using h2
    show (match json_loads sub with
          | some v => v
          | none => fallbackRecord s) = _
    rw [hsub]
    rfl

/-- C4 witness: on prose with no braces both parses fail and the fallback
record is returned. -/
theorem extract_fallback_of_both_parses_fail_witness :
    extract_json_from_response "plain prose with no json" =
      Json.obj [
        ("credibility_score", Json.num 0),
        ("verdict", Json.str "UNKNOWN"),
        ("confidence", Json.num 50),
        ("analysis", Json.str (if pyStrip "plain prose with no json" ≠ "" then
            pyStrip "plain prose with no json" else "Unable to analyze the article.")),
        ("red_flags", Json.str "Response parsing failed"),
        ("credibility_factors", Json.str "Unable to assess"),
        ("verification_tips", Json.str "Please try again with a different article")] :=
  extract_fallback_of_both_parses_fail "plain prose with no json" (by rfl) (by rfl)

/-- C7: when the stripped raw text strictly parses as a JSON object — in
particular one carrying the seven schema fields — `extract_json_from_response`
returns exactly that object, fields untouched. -/
theorem extract_roundtrip (rawText : String) (fields : List (String × Json))
    (hp : json_loads (pyStrip rawText) = some (Json.obj fields))
    (_hs : hasSevenFields (Json.obj fields) = true) :
    extract_json_from_response rawText = Json.obj fields := by
  unfold extract_json_from_response
  rw [hp]

/-- C7 witness: a concrete seven-field JSON object round-trips exactly. -/
theorem extract_roundtrip_witness :
    extract_json_from_response " \x7b\"credibility_score\": 7, \"verdict\": \"CREDIBLE\", \"confidence\": 80, \"analysis\": \"ok\", \"red_flags\": \"none\", \"credibility_factors\": \"good\", \"verification_tips\": \"check\"\x7d " =
      Json.obj [
        ("credibility_score", Json.num 7),
        ("verdict", Json.str "CREDIBLE"),
        ("confidence", Json.num 80),
        ("analysis", Json.str "ok"),
        ("red_flags", Json.str "none"),
        ("credibility_factors", Json.str "good"),
        ("verification_tips", Json.str "check")] :=
  extract_roundtrip _ _ (by rfl) (by rfl)

/-- C1 (counterexample): `extract_json_from_response` does not always return a
record carrying the seven schema fields: on the input "42" the strict parse
succeeds with a bare number, which is returned as-is. -/
theorem extract_sevenfield_counterexample :
    hasSevenFields (extract_json_from_response "42") = false := by rfl

/-- C1 (amended): `extract_json_from_response` is total: it returns the
strictly parsed value of the stripped input, or the parsed value of the greedy
brace-span substring, or the fallback record, which does carry the seven
schema fields. -/
theorem extract_total_trichotomy (s : String) :
    (∃ v, json_loads (pyStrip s) = some v ∧ extract_json_from_response s = v) ∨
    (∃ sub v, json_loads (pyStrip s) = none ∧ braceSpan s = some sub ∧
      json_loads sub = some v ∧ extract_json_from_response s = v) ∨
    (extract_json_from_response s = fallbackRecord s ∧
      hasSevenFields (fallbackRecord s) = true) := by
  cases h1 : json_loads (pyStrip s) with
  | some v =>
    refine Or.inl ⟨v, rfl, ?_⟩
    unfold extract_json_from_response
    rw [h1]
  | none =>
    cases h2 : braceSpan s with
    | none =>
      refine Or.inr (Or.inr ⟨?_, ?_⟩)
      · unfold extract_json_from_response
        rw [h1, h2]
      · rfl
    | some sub =>
      cases h3 : json_loads sub with
      | some v =>
        refine Or.inr (Or.inl ⟨sub, v, rfl, rfl, h3, ?_⟩)
        unfold extract_json_from_response
        rw [h1, h2]
        show (match json_loads sub with
              | some w => w
              | none => fallbackRecord s) = v
        rw [h3]
      | none =>
        refine Or.inr (Or.inr ⟨?_, ?_⟩)
        · unfold extract_json_from_response
          rw [h1, h2]
          show (match json_loads sub with
                | some w => w
                | none => fallbackRecord s) = fallbackRecord s
          rw [h3]
        · rfl

/-- C3: on any extracted object whose credibility_score and confidence entries
are integer-coercible (including out-of-range values) or absent, normalization
succeeds, and the final record carries a credibility_score clamped into
[0, 10] — 0 when the field is absent — and a confidence clamped into [0, 100]
— 50 when the field is absent. -/
theorem normalize_result_clamps (fields : List (String × Json))
    (hc : (pyInt ((dictGet fields "credibility_score").getD (Json.num 0))).isSome = true)
    (hf : (pyInt ((dictGet fields "confidence").getD (Json.num 50))).isSome = true) :
    ∃ out, normalize_result (Json.obj fields) = some out ∧
      (∃ cred : Int, jGet out "credibility_score" = some (Json.num cred) ∧
        0 ≤ cred ∧ cred ≤ 10 ∧
        (dictGet fields "credibility_score" = none → cred = 0)) ∧
      (∃ conf : Int, jGet out "confidence" = some (Json.num conf) ∧
        0 ≤ conf ∧ conf ≤ 100 ∧
        (dictGet fields "confidence" = none → conf = 50)) := by
  cases hcs : pyInt ((dictGet fields "credibility_score").getD (Json.num 0)) with
  | none => rw [hcs] at hc; simp at hc
  | some cred =>
    cases hfs : pyInt ((dictGet fields "confidence").getD (Json.num 50)) with
    | none => rw [hfs] at hf; simp at hf
    | some conf =>
      refine ⟨Json.obj [
          ("credibility_score", Json.num (min 10 (max 0 cred))),
          ("verdict", (dictGet fields "verdict").getD (Json.str "UNKNOWN")),
          ("confidence", Json.num (min 100 (max 0 conf))),
          ("analysis", (dictGet fields "analysis").getD (Json.str "Analysis completed")),
          ("red_flags", (dictGet fields "red_flags").getD (Json.str "No major red flags identified")),
          ("credibility_factors",
            (dictGet fields "credibility_factors").getD (Json.str "Standard credibility markers present")),
          ("verification_tips",
            (dictGet fields "verification_tips").getD (Json.str "Cross-check with multiple reliable sources"))],
        ?_, ⟨min 10 (max 0 cred), ?_, ?_, ?_, ?_⟩, ⟨min 100 (max 0 conf), ?_, ?_, ?_, ?_⟩⟩
      · simp only [normalize_result, hcs, hfs]
      · rfl
      · exact le_min (by norm_num) (le_max_left 0 cred)
      · exact min_le_left 10 (max 0 cred)
      · intro habs
        rw [habs] at hcs
        have : cred = 0 := by
          have h0 : pyInt ((none : Option Json).getD (Json.num 0)) = some (0 : Int) := rfl
          rw [h0] at hcs
          exact (Option.some.inj hcs).symm
        rw [this]
        rfl
      · rfl
      · exact le_min (by norm_num) (le_max_left 0 conf)
      · exact min_le_left 100 (max 0 conf)
      · intro habs
        rw [habs] at hfs
        have : conf = 50 := by
          have h0 : pyInt ((none : Option Json).getD (Json.num 50)) = some (50 : Int) := rfl
          rw [h0] at hfs
          exact (Option.some.inj hfs).symm
        rw [this]
        rfl

/-- C3 witness: out-of-range integer inputs -5 and 999 are accepted and the
output fields are clamped into range. -/
theorem normalize_result_clamps_witness :
    ∃ out, normalize_result (Json.obj [("credibility_score", Json.num (-5)),
        ("confidence", Json.num 999)]) = some out ∧
      (∃ cred : Int, jGet out "credibility_score" = some (Json.num cred) ∧
        0 ≤ cred ∧ cred ≤ 10 ∧
        (dictGet [("credibility_score", Json.num (-5)), ("confidence", Json.num 999)]
          "credibility_score" = none → cred = 0)) ∧
      (∃ conf : Int, jGet out "confidence" = some (Json.num conf) ∧
        0 ≤ conf ∧ conf ≤ 100 ∧
        (dictGet [("credibility_score", Json.num (-5)), ("confidence", Json.num 999)]
          "confidence" = none → conf = 50)) :=
  normalize_result_clamps
    [("credibility_score", Json.num (-5)), ("confidence", Json.num 999)]
    (by rfl) (by rfl)

/-- C8: a request whose text field fails validation is answered 400 with the
validation message, identically for every possible model client behaviour —
the model call is never reached. -/
theorem validation_short_circuits (req : HttpRequest) (data : Json)
    (t msg : String)
    (hj : req.is_json = true) (hb : req.json_body = some data)
    (ht : pyTruthy data = true) (hg : get_article_text data = some t)
    (hv : validate_article_text t = (false, msg)) :
    ∀ client : String → ModelOutcome,
      analyze_authenticity req client = ⟨400, errorBody msg⟩ := by
  intro client
  obtain ⟨isj, body⟩ := req
  simp only at hj hb
  subst hj
  subst hb
  simp [analyze_authenticity, ht, hg, hv]

/-- C8 witness: with the too-short text "ab" the handler answers 400 for a
failing client just as for any other. -/
theorem validation_short_circuits_witness :
    analyze_authenticity ⟨true, some (Json.obj [("text", Json.str "ab")])⟩
        (fun _ => ModelOutcome.err) =
      ⟨400, errorBody "Article text is too short for meaningful analysis"⟩ :=
  validation_short_circuits ⟨true, some (Json.obj [("text", Json.str "ab")])⟩
    (Json.obj [("text", Json.str "ab")]) "ab"
    "Article text is too short for meaningful analysis"
    (by rfl) (by rfl) (by rfl) (by rfl) (by rfl) (fun _ => ModelOutcome.err)

/-- C5: when validation passes but the model call raises, returns a falsy
response, or returns an empty or missing text payload, the handler answers 503
with the fixed unavailable message, before any extraction or normalization. -/
theorem model_unavailable_503 (req : HttpRequest) (data : Json) (t : String)
    (client : String → ModelOutcome)
    (hj : req.is_json = true) (hb : req.json_body = some data)
    (ht : pyTruthy data = true) (hg : get_article_text data = some t)
    (hv : (validate_article_text t).1 = true)
    (hc : ∀ p, client p = ModelOutcome.err ∨ client p = ModelOutcome.ok none ∨
      client p = ModelOutcome.ok (some none) ∨
      client p = ModelOutcome.ok (some (some ""))) :
    analyze_authenticity req client =
      ⟨503, errorBody "AI analysis service is temporarily unavailable. Please try again later."⟩ := by
  obtain ⟨isj, body⟩ := req
  simp only at hj hb
  subst hj
  subst hb
  rcases hc (create_fake_news_analysis_prompt t) with h | h | h | h <;>
    simp [analyze_authenticity, ht, hg, hv, h]

/-- C5 witness: a raising client on a validated request yields the 503
response. -/
theorem model_unavailable_503_witness :
    analyze_authenticity ⟨true, some (Json.obj [("text", Json.str "0123456789abc")])⟩
        (fun _ => ModelOutcome.err) =
      ⟨503, errorBody "AI analysis service is temporarily unavailable. Please try again later."⟩ :=
  model_unavailable_503 ⟨true, some (Json.obj [("text", Json.str "0123456789abc")])⟩
    (Json.obj [("text", Json.str "0123456789abc")]) "0123456789abc"
    (fun _ => ModelOutcome.err)
    (by rfl) (by rfl) (by rfl) (by rfl) (by rfl)
    (fun _ => Or.inl rfl)

/-- C9: a JSON object body whose "text" entry is present but not a string
makes `.strip()` raise, and the handler answers with the catch-all 500
response, not a 400 validation error. -/
theorem nonstring_text_unexpected_500 (req : HttpRequest)
    (fields : List (String × Json)) (v : Json) (client : String → ModelOutcome)
    (hj : req.is_json = true) (hb : req.json_body = some (Json.obj fields))
    (ht : pyTruthy (Json.obj fields) = true)
    (hl : dictGet fields "text" = some v) (hv : v.isStr = false) :
    analyze_authenticity req client =
      ⟨500, errorBody "An unexpected error occurred. Please try again."⟩ := by
  have hget : get_article_text (Json.obj fields) = none := by
    cases v <;> simp_all [get_article_text, Json.isStr]
  obtain ⟨isj, body⟩ := req
  simp only at hj hb
  subst hj
  subst hb
  simp [analyze_authenticity, ht, hget]

/-- C9 witness: a numeric "text" value yields the catch-all 500 response. -/
theorem nonstring_text_unexpected_500_witness :
    analyze_authenticity ⟨true, some (Json.obj [("text", Json.num 5)])⟩
        (fun _ => ModelOutcome.err) =
      ⟨500, errorBody "An unexpected error occurred. Please try again."⟩ :=
  nonstring_text_unexpected_500 ⟨true, some (Json.obj [("text", Json.num 5)])⟩
    [("text", Json.num 5)] (Json.num 5) (fun _ => ModelOutcome.err)
    (by rfl) (by rfl) (by rfl) (by rfl) (by rfl)

/-- C6: when the extracted record's credibility_score or confidence cannot be
coerced to an integer, normalization fails and the handler answers 500 with
the parse-failure message. -/
theorem coercion_failure_parse_500 (req : HttpRequest) (data : Json)
    (txt t : String) (fields : List (String × Json)) (client : String → ModelOutcome)
    (hj : req.is_json = true) (hb : req.json_body = some data)
    (ht : pyTruthy data = true) (hg : get_article_text data = some txt)
    (hv : (validate_article_text txt).1 = true)
    (hcl : ∀ p, client p = ModelOutcome.ok (some (some t))) (hne : t ≠ "")
    (hex : extract_json_from_response t = Json.obj fields)
    (hbad : pyInt ((dictGet fields "credibility_score").getD (Json.num 0)) = none ∨
      pyInt ((dictGet fields "confidence").getD (Json.num 50)) = none) :
    normalize_result (extract_json_from_response t) = none ∧
    analyze_authenticity req client =
      ⟨500, errorBody "Failed to parse analysis results. Please try again."⟩ := by
  have hnorm : normalize_result (extract_json_from_response t) = none := by
    rw [hex]
    rcases hbad with h | h
    · cases hc2 : pyInt ((dictGet fields "confidence").getD (Json.num 50)) <;>
        simp [normalize_result, h, hc2]
    · cases hc1 : pyInt ((dictGet fields "credibility_score").getD (Json.num 0)) <;>
        simp [normalize_result, h, hc1]
  refine ⟨hnorm, ?_⟩
  obtain ⟨isj, body⟩ := req
  simp only at hj hb
  subst hj
  subst hb
  have hc := hcl (create_fake_news_analysis_prompt txt)
  simp [analyze_authenticity, ht, hg, hv, hc, hne, hnorm]

/-- C6 witness: a non-numeric credibility_score string makes the handler
answer 500 with the parse-failure message. -/
theorem coercion_failure_parse_500_witness :
    normalize_result (extract_json_from_response "\x7b\"credibility_score\": \"abc\"\x7d") = none ∧
    analyze_authenticity ⟨true, some (Json.obj [("text", Json.str "0123456789xy")])⟩
        (fun _ => ModelOutcome.ok (some (some "\x7b\"credibility_score\": \"abc\"\x7d"))) =
      ⟨500, errorBody "Failed to parse analysis results. Please try again."⟩ :=
  coercion_failure_parse_500 ⟨true, some (Json.obj [("text", Json.str "0123456789xy")])⟩
    (Json.obj [("text", Json.str "0123456789xy")]) "0123456789xy"
    "\x7b\"credibility_score\": \"abc\"\x7d"
    [("credibility_score", Json.str "abc")]
    (fun _ => ModelOutcome.ok (some (some "\x7b\"credibility_score\": \"abc\"\x7d")))
    (by rfl) (by rfl) (by rfl) (by rfl) (by rfl) (fun _ => rfl) (by decide)
    (by rfl) (Or.inl (by rfl))

/-- C10: a model response whose stripped text strictly parses as JSON but not
as an object is returned as-is by `extract_json_from_response`, and the
handler then answers 500 with the parse-failure message rather than 200. -/
theorem nonobject_response_parse_500 (req : HttpRequest) (data : Json)
    (txt t : String) (v : Json) (client : String → ModelOutcome)
    (hj : req.is_json = true) (hb : req.json_body = some data)
    (ht : pyTruthy data = true) (hg : get_article_text data = some txt)
    (hv : (validate_article_text txt).1 = true)
    (hcl : ∀ p, client p = ModelOutcome.ok (some (some t))) (hne : t ≠ "")
    (hp : json_loads (pyStrip t) = some v) (hobj : v.isObj = false) :
    extract_json_from_response t = v ∧
    analyze_authenticity req client =
      ⟨500, errorBody "Failed to parse analysis results. Please try again."⟩ := by
  have hex : extract_json_from_response t = v := by
    unfold extract_json_from_response
    rw [hp]
  have hnorm : normalize_result v = none := by
    cases v <;> simp_all [normalize_result, Json.isObj]
  refine ⟨hex, ?_⟩
  obtain ⟨isj, body⟩ := req
  simp only at hj hb
  subst hj
  subst hb
  have hc := hcl (create_fake_news_analysis_prompt txt)
  simp [analyze_authenticity, ht, hg, hv, hc, hne, hex, hnorm]

/-- C10 witness: the bare-number response "42" is extracted as-is and the
handler answers 500 with the parse-failure message. -/
theorem nonobject_response_parse_500_witness :
    extract_json_from_response "42" = Json.num 42 ∧
    analyze_authenticity ⟨true, some (Json.obj [("text", Json.str "0123456789z")])⟩
        (fun _ => ModelOutcome.ok (some (some "42"))) =
      ⟨500, errorBody "Failed to parse analysis results. Please try again."⟩ :=
  nonobject_response_parse_500 ⟨true, some (Json.obj [("text", Json.str "0123456789z")])⟩
    (Json.obj [("text", Json.str "0123456789z")]) "0123456789z" "42" (Json.num 42)
    (fun _ => ModelOutcome.ok (some (some "42")))
    (by rfl) (by rfl) (by rfl) (by rfl) (by rfl) (fun _ => rfl) (by decide)
    (by rfl) (by rfl)
